import Mathlib

/-!
Verification development for the model abstraction layer of the
DataValuation notebook (`OpenDataApi.ipynb`).

The notebook defines a `Model` contract (fit / predict / clone plus a
process-wide subclass registry), two gradient-training mixins
(`TorchClassMixin`, `TorchRegressMixin`), a shared torch prediction mixin,
and three classical-estimator adapters (`ClassifierSkLearnWrapper`,
`ClassifierUnweightedSkLearnWrapper`, `RegressionSkLearnWrapper`).

Shallow embedding conventions:
* numeric data is `ℚ` (the notebook's float tensors/arrays, modelled exactly);
* a 2-D array is a `List (List ℚ)` of rows;
* the wrapped third-party sklearn estimator is a black box with a documented
  contract, so its post-`fit` state is represented by the inputs delivered to
  its `fit` method, and its `predict`/`predict_proba` methods are oracle
  parameters constrained by the documented sklearn shape contract;
* `sklearn.dummy.DummyClassifier` / `DummyRegressor` behaviour is modelled
  from the documented dummy-estimator contract (the spec treats
  dummy-estimator statistics as a black box with documented contract);
* randomness (`np.random.choice`, dataloader shuffling) is determinized by
  passing the drawn values explicitly as parameters;
* Python exceptions are `Option`/branching, Python `dict` is an association
  list with most-recent-entry-wins lookup.
-/

/-- `np.argmax` over one row: index of the first occurrence of the maximal
entry (0 for an empty row, as a degenerate default). -/
def npArgmax (row : List ℚ) : Nat :=
  (row.foldl
    (fun acc v =>
      match acc with
      | (bestIdx, bestVal, i) =>
        if bestVal < v then (i, v, i + 1) else (bestIdx, bestVal, i + 1))
    ((0 : Nat), row.headD 0, (0 : Nat))).1

/-- Number of occurrences of class `c` in the flat label list. -/
def countOf (y : List Nat) (c : Nat) : Nat :=
  (y.filter (fun a => a = c)).length

/-- The most frequent class of a flat label list, smallest class on ties.
This models `sklearn`'s `DummyClassifier(strategy="most_frequent")`, whose
`class_prior_.argmax()` picks the first (hence smallest) maximal class of the
sorted distinct classes. -/
def mostFrequentClass (y : List Nat) : Nat :=
  match y.dedup with
  | [] => 0
  | c0 :: rest =>
    rest.foldl
      (fun best c =>
        if countOf y best < countOf y c ∨ (countOf y best = countOf y c ∧ c < best)
        then c else best)
      c0

/-- Position of the most frequent class within the sorted distinct observed
classes: the number of distinct observed classes smaller than it.  This is the
column that `DummyClassifier(strategy="most_frequent").predict_proba` sets
to one. -/
def mostFreqHotIndex (y : List Nat) : Nat :=
  (y.dedup.filter (fun c => c < mostFrequentClass y)).length

/-- State of a fitted `sklearn.dummy.DummyClassifier` as used by the adapters:
`hotIndex` is the probability-one column of `predict_proba` (position of the
constant, resp. of the most frequent class, within the observed classes) and
`n_classes_` is the reported class count, which the adapters overwrite with
their own `num_classes`. -/
structure DummyClassifierState where
  hotIndex : Nat
  n_classes_ : Nat
deriving DecidableEq

/-- Row `j ↦ if j = hot then 1 else 0` of the given width. -/
def oneHotRow (width hot : Nat) : List ℚ :=
  (List.range width).map (fun j => if j = hot then 1 else 0)

/-- `DummyClassifier.predict_proba` (documented contract): an
`nRows × n_classes_` matrix with all probability mass on the hot column. -/
def DummyClassifierState.predict_proba (d : DummyClassifierState) (nRows : Nat) :
    List (List ℚ) :=
  List.replicate nRows (oneHotRow d.n_classes_ d.hotIndex)

/-- The estimator slot of a classifier adapter.  A wrapped (black-box) sklearn
classifier is either still unfitted or remembers exactly the inputs delivered
to its `fit` call (covariates, flat class indices, optional per-row weights);
the fallback paths replace it by a dummy classifier. -/
inductive SkClassifier where
  | unfitted
  | fitted (x : List (List ℚ)) (y : List Nat) (w : Option (List ℚ))
  | dummy (d : DummyClassifierState)
deriving DecidableEq

/-- State of a `ClassifierSkLearnWrapper` (also reused by its subclass
`ClassifierUnweightedSkLearnWrapper`, which only overrides `fit`). -/
structure ClassifierSkLearnWrapper where
  model : SkClassifier
  num_classes : Nat
deriving DecidableEq

/-- `ClassifierSkLearnWrapper.__init__`: fresh wrapped estimator. -/
def ClassifierSkLearnWrapper.new (num_classes : Nat) : ClassifierSkLearnWrapper :=
  { model := SkClassifier.unfitted, num_classes := num_classes }

/-- `ClassifierSkLearnWrapper.fit`.  `num_samples` is the length of the
aligned `CatDataset` (the container collaborator guarantees covariates and
labels have equal row counts, so the length is the covariate row count).
Zero rows: replace the estimator by a constant-class-0 dummy whose reported
class count is forced to `num_classes`.  Labels are flattened by row-wise
`np.argmax`; if not every declared class is observed
(`len(np.unique(y)) != num_classes`, and `List.dedup` has exactly the length
of `np.unique`), replace the estimator by a most-frequent dummy, again
forcing the reported class count.  Otherwise the wrapped estimator itself is
fit, natively weighted when weights were supplied (`np.squeeze` of an
`(n,)`/`(n,1)` weight column is the flat weight list) and with
`sample_weight=None` otherwise. -/
def ClassifierSkLearnWrapper.fit (self : ClassifierSkLearnWrapper)
    (x_train : List (List ℚ)) (y_train : List (List ℚ))
    (sample_weight : Option (List ℚ)) : ClassifierSkLearnWrapper :=
  let num_samples := x_train.length
  if num_samples = 0 then
    { self with model := SkClassifier.dummy ⟨0, self.num_classes⟩ }
  else
    let y_idx := y_train.map npArgmax
    let y_train_unique := y_idx.dedup
    if y_train_unique.length ≠ self.num_classes then
      { self with model := SkClassifier.dummy ⟨mostFreqHotIndex y_idx, self.num_classes⟩ }
    else
      match sample_weight with
      | some w => { self with model := SkClassifier.fitted x_train y_idx (some w) }
      | none => { self with model := SkClassifier.fitted x_train y_idx none }

/-- `ClassifierUnweightedSkLearnWrapper.fit`: identical degenerate handling,
but a supplied weight vector is honoured by fitting the wrapped estimator,
unweighted, on a with-replacement resample of the data whose row-selection
probabilities are the normalized weights.  The output of `np.random.choice`
(one drawn row index per original row) is determinized as the explicit
`randomChoiceIndices` parameter. -/
def ClassifierUnweightedSkLearnWrapper.fit (self : ClassifierSkLearnWrapper)
    (x_train : List (List ℚ)) (y_train : List (List ℚ))
    (sample_weight : Option (List ℚ)) (randomChoiceIndices : List Nat) :
    ClassifierSkLearnWrapper :=
  let num_samples := x_train.length
  if num_samples = 0 then
    { self with model := SkClassifier.dummy ⟨0, self.num_classes⟩ }
  else
    let y_idx := y_train.map npArgmax
    let y_train_unique := y_idx.dedup
    if y_train_unique.length ≠ self.num_classes then
      { self with model := SkClassifier.dummy ⟨mostFreqHotIndex y_idx, self.num_classes⟩ }
    else
      match sample_weight with
      | some _ =>
        let x_resampled := randomChoiceIndices.map (fun i => x_train.getD i [])
        let y_resampled := randomChoiceIndices.map (fun i => y_idx.getD i 0)
        { self with model := SkClassifier.fitted x_resampled y_resampled none }
      | none => { self with model := SkClassifier.fitted x_train y_idx none }

/-- `ClassifierSkLearnWrapper.predict`: `self.model.predict_proba(x)` as a
float tensor.  The black-box wrapped estimator's `predict_proba` is the
oracle parameter `pp`, applied to the inputs it was fitted on and the query
rows; predicting with a never-fitted sklearn estimator raises
(`NotFittedError`), modelled as `none`. -/
def ClassifierSkLearnWrapper.predict
    (pp : List (List ℚ) → List Nat → Option (List ℚ) → List (List ℚ) → List (List ℚ))
    (self : ClassifierSkLearnWrapper) (x : List (List ℚ)) :
    Option (List (List ℚ)) :=
  match self.model with
  | SkClassifier.unfitted => none
  | SkClassifier.fitted xt yt w => some (pp xt yt w x)
  | SkClassifier.dummy d => some (DummyClassifierState.predict_proba d x.length)

/-- `np.ndarray.flatten` / row-major ravel of a 2-D array. -/
def npRavel : List (List ℚ) → List ℚ
  | [] => []
  | r :: rs => r ++ npRavel rs

/-- Fuelled row chunking: `take k` repeatedly.  The fuel is instantiated with
the list length, which bounds the number of chunks. -/
def chunkRowsAux (k : Nat) : Nat → List ℚ → List (List ℚ)
  | 0, _ => []
  | _ + 1, [] => []
  | fuel + 1, l => l.take k :: chunkRowsAux k fuel (l.drop k)

/-- `np.reshape(-1, k)` of a (flattened) array: splits it into rows of `k`
entries; numpy raises unless `k` is positive and divides the element count,
modelled as `none`. -/
def npReshapeNegOne (l : List ℚ) (k : Nat) : Option (List (List ℚ)) :=
  if 0 < k ∧ l.length % k = 0 then some (chunkRowsAux k l.length l) else none

/-- The estimator slot of `RegressionSkLearnWrapper`: a black-box sklearn
regressor remembering its `fit` inputs, or the zero-mean `DummyRegressor`
fallback (`DummyRegressor(strategy="mean")` fit on a single synthetic row
with target `np.zeros((1, num_classes))` has `constant_ = ` that zero row,
and predicts it for every query row). -/
inductive SkRegressor where
  | unfitted
  | fitted (x : List (List ℚ)) (y : List (List ℚ)) (w : Option (List ℚ))
  | dummyMean (constant : List ℚ)
deriving DecidableEq

/-- State of a `RegressionSkLearnWrapper`. -/
structure RegressionSkLearnWrapper where
  model : SkRegressor
  num_classes : Nat
deriving DecidableEq

/-- `RegressionSkLearnWrapper.__init__`: fresh estimator, `num_classes = 1`. -/
def RegressionSkLearnWrapper.new : RegressionSkLearnWrapper :=
  { model := SkRegressor.unfitted, num_classes := 1 }

/-- `RegressionSkLearnWrapper.fit`: zero rows replace the estimator by the
zero-mean dummy; otherwise the wrapped estimator is fit, natively weighted
when weights were supplied and with `sample_weight=None` otherwise. -/
def RegressionSkLearnWrapper.fit (self : RegressionSkLearnWrapper)
    (x_train : List (List ℚ)) (y_train : List (List ℚ))
    (sample_weight : Option (List ℚ)) : RegressionSkLearnWrapper :=
  let num_samples := x_train.length
  if num_samples = 0 then
    { self with model := SkRegressor.dummyMean (List.replicate self.num_classes 0) }
  else
    match sample_weight with
    | some w => { self with model := SkRegressor.fitted x_train y_train (some w) }
    | none => { self with model := SkRegressor.fitted x_train y_train none }

/-- `RegressionSkLearnWrapper.predict`:
`self.model.predict(x).reshape(-1, self.num_classes)` as a float tensor.  The
black-box wrapped estimator's `predict` is the oracle parameter `pr`,
returning the flattened prediction array (`reshape` flattens anyway). -/
def RegressionSkLearnWrapper.predict
    (pr : List (List ℚ) → List (List ℚ) → Option (List ℚ) → List (List ℚ) → List ℚ)
    (self : RegressionSkLearnWrapper) (x : List (List ℚ)) :
    Option (List (List ℚ)) :=
  match self.model with
  | SkRegressor.unfitted => none
  | SkRegressor.fitted xt yt w => npReshapeNegOne (pr xt yt w x) self.num_classes
  | SkRegressor.dummyMean c =>
    npReshapeNegOne (npRavel (List.replicate x.length c)) self.num_classes

/-- The two members of the cross-entropy family the classifier training loop
chooses between. -/
inductive Criterion where
  | binary_cross_entropy
  | cross_entropy
deriving DecidableEq

/-- `TorchClassMixin.fit`, criterion-selection line:
`criterion = F.binary_cross_entropy if self.num_classes == 2 else F.cross_entropy`. -/
def TorchClassMixin.criterion (num_classes : Nat) : Criterion :=
  if num_classes = 2 then Criterion.binary_cross_entropy
  else Criterion.cross_entropy

/-- `.mean()` of a 1-D tensor. -/
def tensorMean (l : List ℚ) : ℚ :=
  l.sum / l.length

/-- The loss computed for one batch by both torch training mixins
(`perRowLoss` is the output of `criterion(outputs, y_batch, reduction="none")`,
one value per row): with weights supplied the per-row losses are multiplied by
the row weights and then averaged, otherwise `reduction="mean"` is used. -/
def torchBatchLoss (perRowLoss : List ℚ) (sample_weight : Option (List ℚ)) : ℚ :=
  match sample_weight with
  | some w => tensorMean (List.zipWith (fun a b => a * b) perRowLoss w)
  | none => tensorMean perRowLoss

/-- Learnable state of a torch model: parameter vector plus the
train/eval mode flag (`self.train()` / `self.eval()`). -/
structure TorchModelState where
  params : List ℚ
  training : Bool
deriving DecidableEq

/-- Python `int(...)` on a (possibly fractional) numeric value: truncation
toward zero. -/
def pyInt (q : ℚ) : Int :=
  if 0 ≤ q then Int.floor q else Int.ceil q

/-- `TorchClassMixin.fit`, loop shape: switch to training mode, then run
`range(int(epochs))` epochs.  One epoch (a fresh shuffle of the data into
batches, each applying an Adam step driven by the selected criterion and
`torchBatchLoss`) is black-box optimizer/shuffle math, determinized as the
epoch-indexed `epochStep` parameter; `range(n)` is empty for `n <= 0`. -/
def TorchClassMixin.fit (epochStep : Nat → TorchModelState → TorchModelState)
    (self : TorchModelState) (epochs : ℚ) : TorchModelState :=
  (List.range (pyInt epochs).toNat).foldl
    (fun s e => epochStep e s) { self with training := true }

/-- `TorchRegressMixin.fit`: identical loop shape with the MSE criterion
inside the black-box epoch step. -/
def TorchRegressMixin.fit (epochStep : Nat → TorchModelState → TorchModelState)
    (self : TorchModelState) (epochs : ℚ) : TorchModelState :=
  (List.range (pyInt epochs).toNat).foldl
    (fun s e => epochStep e s) { self with training := true }

/-- `TorchPredictMixin.predict`: collect the input into one batch, switch the
model to evaluation mode, and return the forward pass output (computed with
gradient tracking disabled).  The network forward pass is the black-box
`forward` parameter.  Returns the post-call model state as well, since
`self.eval()` mutates the mode flag. -/
def TorchPredictMixin.predict (forward : List (List ℚ) → List (List ℚ))
    (self : TorchModelState) (x : List (List ℚ)) :
    TorchModelState × List (List ℚ) :=
  ({ self with training := false }, forward x)

/-- ASCII lowercasing of one character (`'A'..'Z'` shifted by 32), the
relevant fragment of Python's `str.lower()` for class names. -/
def asciiToLower (c : Char) : Char :=
  if 65 ≤ c.toNat ∧ c.toNat ≤ 90 then Char.ofNat (c.toNat + 32) else c

/-- Python's `str.lower()` on a class name, per-character. -/
def pyLower (s : String) : String :=
  String.mk (s.data.map asciiToLower)

/-- A Python class object, identified by its (case-sensitive) `__name__`. -/
structure PyClass where
  name : String
deriving DecidableEq

/-- The process-wide `Model.Models` registry: a dict from lowercase class
name to class object, modelled as an association list where the most recent
entry for a key wins (dict insertion overwrites). -/
abbrev ModelRegistry := List (String × PyClass)

/-- `Model.__init_subclass__`:
`cls.Models[cls.__name__.lower()] = cls`, run once per (concrete) subclass at
class-definition time on the single shared registry. -/
def Model.initSubclass (reg : ModelRegistry) (cls : PyClass) : ModelRegistry :=
  (pyLower cls.name, cls) :: reg

/-- Dict lookup in the shared registry (most recent entry for the key). -/
def ModelRegistry.lookupName (reg : ModelRegistry) (k : String) : Option PyClass :=
  reg.lookup k

/-- A heap of estimator objects, for stating aliasing/independence facts
about `Model.clone` (which is `copy.deepcopy(self)`): `contents` maps
addresses to the sklearn-classifier objects living there, `next` is the next
fresh address (every allocated model's address is below `next`). -/
structure EstimatorHeap where
  contents : Nat → SkClassifier
  next : Nat

/-- A classifier-adapter object on the heap: its `model` attribute is a
reference to the wrapped estimator object; `num_classes` is an immutable
`int`, held by value. -/
structure ModelRef where
  modelAddr : Nat
  num_classes : Nat

/-- A model reference is valid on a heap when its estimator address has been
allocated. -/
def ModelRef.wf (r : ModelRef) (h : EstimatorHeap) : Prop :=
  r.modelAddr < h.next

/-- `Model.clone`, i.e. `copy.deepcopy(self)`: allocates a fresh estimator
object holding a copy of the original's estimator state, and returns a new
adapter referring to it; nothing of the original is shared. -/
def Model.clone (r : ModelRef) (h : EstimatorHeap) : ModelRef × EstimatorHeap :=
  (⟨h.next, r.num_classes⟩,
   ⟨fun a => if a = h.next then h.contents r.modelAddr else h.contents a,
    h.next + 1⟩)

/-- `ClassifierSkLearnWrapper.fit` acting on a heap-allocated adapter: the
`self.model = ...` rebinding / in-place estimator fit updates exactly the
adapter's own estimator slot. -/
def ModelRef.fit (r : ModelRef) (h : EstimatorHeap)
    (x_train y_train : List (List ℚ)) (sample_weight : Option (List ℚ)) :
    EstimatorHeap :=
  let fitted := ClassifierSkLearnWrapper.fit
    ⟨h.contents r.modelAddr, r.num_classes⟩ x_train y_train sample_weight
  ⟨fun a => if a = r.modelAddr then fitted.model else h.contents a, h.next⟩

/-- `predict` of a heap-allocated adapter reads only its own estimator slot. -/
def ModelRef.predict
    (pp : List (List ℚ) → List Nat → Option (List ℚ) → List (List ℚ) → List (List ℚ))
    (r : ModelRef) (h : EstimatorHeap) (x : List (List ℚ)) :
    Option (List (List ℚ)) :=
  ClassifierSkLearnWrapper.predict pp ⟨h.contents r.modelAddr, r.num_classes⟩ x

/-- The keyword under which the abstract `Model.fit` contract (and every
concrete `fit` docstring) declares the optional per-row weights:
`sample_weights`, documented as "must be passed in as key word arg". -/
def Model.fitWeightKeyword : String := "sample_weights"

/-- The keyword parameter that actually binds the weights in every concrete
`fit` implementation of the notebook (`TorchClassMixin.fit`,
`TorchRegressMixin.fit` and all three sklearn adapters): `sample_weight`. -/
def concreteFitWeightParam : String := "sample_weight"

/-- The `x_train` parameter name. -/
def xTrainParam : String := "x_train"

/-- The `y_train` parameter name. -/
def yTrainParam : String := "y_train"

/-- The `batch_size` parameter name. -/
def batchSizeParam : String := "batch_size"

/-- The `epochs` parameter name. -/
def epochsParam : String := "epochs"

/-- The `lr` parameter name. -/
def lrParam : String := "lr"

/-- The parameters of `TorchClassMixin.fit` that a keyword argument can bind
to.  The signature is
`(self, x_train, y_train, sample_weight=None, batch_size=32, epochs=1, lr=0.01)`
with no `**kwargs` catch-all, so any other keyword raises `TypeError`. -/
def TorchClassMixin.fitKeywordParams : List String :=
  [xTrainParam, yTrainParam, concreteFitWeightParam, batchSizeParam, epochsParam,
    lrParam]

/-- Python call semantics for `TorchClassMixin.fit`: the call raises
`TypeError` exactly when some keyword matches no parameter. -/
def TorchClassMixin.fitCallRaisesTypeError (keywords : List String) : Bool :=
  keywords.any (fun k => !(TorchClassMixin.fitKeywordParams.contains k))

/-- Python call semantics for `ClassifierSkLearnWrapper.fit`
(`(self, x_train, y_train, *args, sample_weight=None, **kwargs)`): the
`sample_weight` parameter binds the value passed under the key
`sample_weight`; every other keyword falls into `**kwargs` and is merely
forwarded to the wrapped estimator's own `fit`. -/
def ClassifierSkLearnWrapper.fitWithKwargs (self : ClassifierSkLearnWrapper)
    (x_train y_train : List (List ℚ)) (kwargs : List (String × List ℚ)) :
    ClassifierSkLearnWrapper :=
  ClassifierSkLearnWrapper.fit self x_train y_train
    (kwargs.lookup concreteFitWeightParam)

/-- Normalization of a wrapped estimator's remembered fit inputs by the
documented sklearn convention that `sample_weight=None` means uniform unit
weights: used to compare fitted estimator states across the weighted and
unweighted call paths. -/
def SkClassifier.canonical : SkClassifier → SkClassifier
  | SkClassifier.fitted x y none =>
    SkClassifier.fitted x y (some (List.replicate x.length 1))
  | s => s

/-- Whether the adapter's estimator slot has been replaced by a dummy
fallback. -/
def SkClassifier.isFallback : SkClassifier → Bool
  | SkClassifier.dummy _ => true
  | _ => false

/-- Whether the adapter's estimator slot is the wrapped estimator itself,
fitted. -/
def SkClassifier.isFittedWrapped : SkClassifier → Bool
  | SkClassifier.fitted _ _ _ => true
  | _ => false

/-- A sample conforming `predict_proba` oracle for the black-box wrapped
classifier: per the sklearn contract it returns one row per query row and one
column per distinct class seen at fit time (here with all probability mass on
the first observed class). -/
def ppObservedClasses (xt : List (List ℚ)) (yt : List Nat) (w : Option (List ℚ))
    (x : List (List ℚ)) : List (List ℚ) :=
  List.replicate x.length (oneHotRow yt.dedup.length 0)

/-- Shape predicate for an optional prediction matrix: defined, with the given
row and column counts. -/
def predShape (o : Option (List (List ℚ))) (rows cols : Nat) : Prop :=
  match o with
  | none => False
  | some out => out.length = rows ∧ ∀ row ∈ out, row.length = cols

lemma dedup_of_all_zero (l : List Nat) (hne : l ≠ []) (hz : ∀ a ∈ l, a = 0) :
    l.dedup = [0] := by
  induction l with
  | nil => cases hne rfl
  | cons a t ih =>
    have ha : a = 0 := hz a (List.mem_cons_self a t)
    subst ha
    cases t with
    | nil => simp
    | cons b t' =>
      have ht : (b :: t').dedup = [0] :=
        ih (by simp) (fun x hx => hz x (List.mem_cons_of_mem _ hx))
      have hmem : (0 : Nat) ∈ b :: t' := by
        have : (0 : Nat) ∈ (b :: t').dedup := by rw [ht]; simp
        exact List.mem_dedup.mp this
      rw [List.dedup_cons_of_mem hmem, ht]

lemma zipWith_mul_ones (l : List ℚ) :
    List.zipWith (fun a b => a * b) l (List.replicate l.length 1) = l := by
  induction l with
  | nil => simp
  | cons a t ih => simp [List.replicate_succ, ih]

lemma dedup_length_le_of_lt (l : List Nat) (n : Nat) (h : ∀ a ∈ l, a < n) :
    l.dedup.length ≤ n := by
  have hsub : l.toFinset ⊆ Finset.range n := by
    intro a ha
    rw [List.mem_toFinset] at ha
    exact Finset.mem_range.mpr (h a ha)
  have := Finset.card_le_card hsub
  rw [List.card_toFinset, Finset.card_range] at this
  exact this

lemma dedup_length_eq_of_represented (l : List Nat) (n : Nat)
    (h : ∀ a ∈ l, a < n) (hrep : ∀ c, c < n → c ∈ l) :
    l.dedup.length = n := by
  have hset : l.toFinset = Finset.range n := by
    ext a
    rw [List.mem_toFinset, Finset.mem_range]
    exact ⟨h a, hrep a⟩
  have := congrArg Finset.card hset
  rw [List.card_toFinset, Finset.card_range] at this
  exact this

lemma npRavel_replicate (n : Nat) (c : List ℚ) :
    npRavel (List.replicate n c) = (List.replicate n c).flatten := by
  induction n with
  | zero => simp [npRavel]
  | succ m ih => simp [List.replicate_succ, npRavel, ih]

lemma npRavel_replicate_zeros (n k : Nat) :
    npRavel (List.replicate n (List.replicate k (0 : ℚ)))
      = List.replicate (n * k) 0 := by
  induction n with
  | zero => simp [npRavel]
  | succ m ih =>
    rw [List.replicate_succ, Nat.succ_mul, Nat.add_comm]
    simp only [npRavel, ih]
    rw [← List.replicate_add]

lemma chunkRowsAux_replicate_zeros (k : Nat) (hk : 0 < k) :
    ∀ (n fuel : Nat), n * k ≤ fuel →
      chunkRowsAux k fuel (List.replicate (n * k) (0 : ℚ))
        = List.replicate n (List.replicate k 0) := by
  intro n
  induction n with
  | zero => intro fuel _; cases fuel <;> simp [chunkRowsAux]
  | succ m ih =>
    intro fuel hfuel
    have hlen : (m + 1) * k = m * k + k := Nat.succ_mul m k
    have hpos : 0 < (m + 1) * k := Nat.mul_pos (Nat.succ_pos m) hk
    obtain ⟨f, rfl⟩ : ∃ f, fuel = f + 1 := by
      cases fuel with
      | zero => omega
      | succ f => exact ⟨f, rfl⟩
    have hne : List.replicate ((m + 1) * k) (0 : ℚ) ≠ [] := by
      intro h
      have := congrArg List.length h
      simp at this
      omega
    rw [show chunkRowsAux k (f + 1) (List.replicate ((m + 1) * k) (0 : ℚ))
          = (List.replicate ((m + 1) * k) (0 : ℚ)).take k
            :: chunkRowsAux k f ((List.replicate ((m + 1) * k) (0 : ℚ)).drop k) by
      cases hl : List.replicate ((m + 1) * k) (0 : ℚ) with
      | nil => exact absurd hl hne
      | cons a t => rfl]
    rw [List.take_replicate, List.drop_replicate]
    have h1 : min k ((m + 1) * k) = k := by
      apply Nat.min_eq_left; omega
    have h2 : (m + 1) * k - k = m * k := by omega
    rw [h1, h2, ih f (by omega)]
    simp [List.replicate_succ]

lemma chunkRowsAux_shape (k : Nat) (hk : 0 < k) :
    ∀ (fuel : Nat) (l : List ℚ), l.length ≤ fuel → k ∣ l.length →
      (chunkRowsAux k fuel l).length = l.length / k ∧
        ∀ r ∈ chunkRowsAux k fuel l, r.length = k := by
  intro fuel
  induction fuel with
  | zero =>
    intro l hlen _
    have : l = [] := List.eq_nil_of_length_eq_zero (Nat.le_zero.mp hlen)
    subst this
    simp [chunkRowsAux]
  | succ f ih =>
    intro l hlen hdvd
    cases l with
    | nil => simp [chunkRowsAux]
    | cons a t =>
      obtain ⟨c, hc⟩ := hdvd
      have hcpos : 0 < c := by
        rcases Nat.eq_zero_or_pos c with h0 | h; · simp [h0] at hc
        · exact h
      have hklen : k ≤ (a :: t).length := by
        rw [hc]; calc k = k * 1 := (Nat.mul_one k).symm
          _ ≤ k * c := Nat.mul_le_mul_left k hcpos
      rw [show chunkRowsAux k (f + 1) (a :: t)
            = (a :: t).take k :: chunkRowsAux k f ((a :: t).drop k) from rfl]
      have hdroplen : ((a :: t).drop k).length = (a :: t).length - k := by
        simp
      have hdvd' : k ∣ ((a :: t).drop k).length := by
        rw [hdroplen, hc]
        exact ⟨c - 1, by cases c with | zero => omega | succ c' => simp [Nat.succ_mul, Nat.mul_succ]⟩
      have hle' : ((a :: t).drop k).length ≤ f := by
        rw [hdroplen]
        have : 0 < (a :: t).length := by simp
        omega
      obtain ⟨ihlen, ihrows⟩ := ih ((a :: t).drop k) hle' hdvd'
      constructor
      · rw [List.length_cons, ihlen, hdroplen, hc]
        have : k * c - k = k * (c - 1) := by
          cases c with
          | zero => omega
          | succ c' => rw [Nat.mul_succ, Nat.succ_sub_one]; omega
        rw [this, Nat.mul_div_cancel_left _ hk, Nat.mul_div_cancel_left _ hk]
        omega
      · intro r hr
        rcases List.mem_cons.mp hr with h | h
        · subst h
          rw [List.length_take]
          exact Nat.min_eq_left hklen
        · exact ihrows r h

lemma oneHotRow_length (width hot : Nat) : (oneHotRow width hot).length = width := by
  simp [oneHotRow]

lemma oneHotRow_getD_zero (width : Nat) (hw : 0 < width) :
    (oneHotRow width 0).getD 0 0 = 1 := by
  cases width with
  | zero => omega
  | succ w => simp [oneHotRow, List.range_succ_eq_map]

lemma oneHotRow_sum_zero (width : Nat) (hw : 0 < width) :
    (oneHotRow width 0).sum = 1 := by
  induction width with
  | zero => omega
  | succ w ih =>
    rw [oneHotRow, List.range_succ, List.map_append, List.sum_append]
    rw [← oneHotRow]
    cases w with
    | zero => simp [oneHotRow]
    | succ w' =>
      rw [ih (Nat.succ_pos w')]
      simp

lemma mostFreqHotIndex_all_zero (y : List Nat) (h : y.dedup = [0]) :
    mostFreqHotIndex y = 0 := by
  simp [mostFreqHotIndex, mostFrequentClass, h]

/-- C1: for every classical adapter variant
(`ClassifierSkLearnWrapper`, `ClassifierUnweightedSkLearnWrapper`,
`RegressionSkLearnWrapper`), `fit` on a zero-row training set does not raise:
it replaces the wrapped estimator with a fallback and returns self, and a
subsequent `predict` on any `n`-row input is defined and finite — an
`n × num_classes` all-zeros matrix for the regression fallback, and an
`n × num_classes` probability matrix putting all mass on class 0 for the
classifier fallback.  (Totality of the embedded `fit` functions is the
"does not raise" part.) -/
theorem c1_zero_row_fit_fallback
    (pp : List (List ℚ) → List Nat → Option (List ℚ) → List (List ℚ) → List (List ℚ))
    (pr : List (List ℚ) → List (List ℚ) → Option (List ℚ) → List (List ℚ) → List ℚ)
    (m : ClassifierSkLearnWrapper) (rg : RegressionSkLearnWrapper)
    (sw : Option (List ℚ)) (idx : List Nat) (x : List (List ℚ))
    (hm : 0 < m.num_classes) :
    ClassifierSkLearnWrapper.fit m [] [] sw
        = { m with model := SkClassifier.dummy ⟨0, m.num_classes⟩ }
    ∧ ClassifierUnweightedSkLearnWrapper.fit m [] [] sw idx
        = { m with model := SkClassifier.dummy ⟨0, m.num_classes⟩ }
    ∧ ClassifierSkLearnWrapper.predict pp (ClassifierSkLearnWrapper.fit m [] [] sw) x
        = some (List.replicate x.length (oneHotRow m.num_classes 0))
    ∧ (oneHotRow m.num_classes 0).length = m.num_classes
    ∧ (oneHotRow m.num_classes 0).getD 0 0 = 1
    ∧ (oneHotRow m.num_classes 0).sum = 1
    ∧ RegressionSkLearnWrapper.fit rg [] [] sw
        = { rg with model := SkRegressor.dummyMean (List.replicate rg.num_classes 0) }
    ∧ (0 < rg.num_classes →
        RegressionSkLearnWrapper.predict pr (RegressionSkLearnWrapper.fit rg [] [] sw) x
          = some (List.replicate x.length (List.replicate rg.num_classes 0))) := by
  have hcfit : ClassifierSkLearnWrapper.fit m [] [] sw
      = { m with model := SkClassifier.dummy ⟨0, m.num_classes⟩ } := by
    simp [ClassifierSkLearnWrapper.fit]
  have hufit : ClassifierUnweightedSkLearnWrapper.fit m [] [] sw idx
      = { m with model := SkClassifier.dummy ⟨0, m.num_classes⟩ } := by
    simp [ClassifierUnweightedSkLearnWrapper.fit]
  have hrfit : RegressionSkLearnWrapper.fit rg [] [] sw
      = { rg with model := SkRegressor.dummyMean (List.replicate rg.num_classes 0) } := by
    simp [RegressionSkLearnWrapper.fit]
  refine ⟨hcfit, hufit, ?_, oneHotRow_length _ _, oneHotRow_getD_zero _ hm,
    oneHotRow_sum_zero _ hm, hrfit, ?_⟩
  · rw [hcfit]
    simp [ClassifierSkLearnWrapper.predict, DummyClassifierState.predict_proba]
  · intro hk
    rw [hrfit]
    simp only [RegressionSkLearnWrapper.predict]
    rw [npRavel_replicate_zeros x.length rg.num_classes]
    have hmod : (List.replicate (x.length * rg.num_classes) (0 : ℚ)).length
        % rg.num_classes = 0 := by
      rw [List.length_replicate]
      exact Nat.mul_mod_left x.length rg.num_classes
    simp only [npReshapeNegOne, hmod, hk, and_true, if_pos, true_and]
    rw [List.length_replicate,
      chunkRowsAux_replicate_zeros rg.num_classes hk x.length
        (x.length * rg.num_classes) (Nat.le_refl _)]

/-- Witness for C1 at `num_classes = 2` (classifiers) and the base regression
wrapper (`num_classes = 1`), with a two-row query. -/
theorem c1_zero_row_fit_fallback_witness :
    0 < (ClassifierSkLearnWrapper.new 2).num_classes
    ∧ ClassifierSkLearnWrapper.predict ppObservedClasses
        (ClassifierSkLearnWrapper.fit (ClassifierSkLearnWrapper.new 2) [] [] none)
        [[5], [7]]
        = some [[1, 0], [1, 0]]
    ∧ RegressionSkLearnWrapper.predict (fun _ _ _ _ => [])
        (RegressionSkLearnWrapper.fit RegressionSkLearnWrapper.new [] [] none)
        [[5], [7]]
        = some [[0], [0]] := by
  have h := c1_zero_row_fit_fallback ppObservedClasses (fun _ _ _ _ => [])
    (ClassifierSkLearnWrapper.new 2) RegressionSkLearnWrapper.new none [] [[5], [7]]
    (by decide)
  refine ⟨by decide, ?_, ?_⟩
  · rw [h.2.2.1]; decide
  · rw [h.2.2.2.2.2.2.2 (by decide)]; decide

/-- C2: for every classifier adapter with declared `num_classes = 3`, fitting
on a non-empty training set whose labels all arg-max to class 0 replaces the
wrapped estimator with a most-frequent-class fallback, and every subsequent
`predict` deterministically assigns the highest probability to class 0, for
every input. -/
theorem c2_missing_class_most_frequent
    (pp : List (List ℚ) → List Nat → Option (List ℚ) → List (List ℚ) → List (List ℚ))
    (m : ClassifierSkLearnWrapper) (hnc : m.num_classes = 3)
    (x_train y_train : List (List ℚ)) (sw : Option (List ℚ)) (idx : List Nat)
    (x : List (List ℚ))
    (hx : x_train ≠ []) (hy : y_train.length = x_train.length)
    (hall : ∀ r ∈ y_train, npArgmax r = 0) :
    (ClassifierSkLearnWrapper.fit m x_train y_train sw).model
        = SkClassifier.dummy ⟨0, 3⟩
    ∧ (ClassifierUnweightedSkLearnWrapper.fit m x_train y_train sw idx).model
        = SkClassifier.dummy ⟨0, 3⟩
    ∧ ClassifierSkLearnWrapper.predict pp
        (ClassifierSkLearnWrapper.fit m x_train y_train sw) x
        = some (List.replicate x.length (oneHotRow 3 0))
    ∧ (∀ j, j < 3 → j ≠ 0 →
        (oneHotRow 3 0).getD j 0 < (oneHotRow 3 0).getD 0 0) := by
  have hx0 : x_train.length ≠ 0 := fun h => hx (List.length_eq_zero.mp h)
  have hyne : y_train ≠ [] := by
    intro h
    subst h
    exact hx (List.length_eq_zero.mp hy.symm)
  have hzero : ∀ a ∈ y_train.map npArgmax, a = 0 := by
    intro a ha
    obtain ⟨r, hr, rfl⟩ := List.mem_map.mp ha
    exact hall r hr
  have hmapne : y_train.map npArgmax ≠ [] := by
    intro h
    exact hyne (List.map_eq_nil_iff.mp h)
  have hded : (y_train.map npArgmax).dedup = [0] :=
    dedup_of_all_zero _ hmapne hzero
  have hlen3 : (y_train.map npArgmax).dedup.length ≠ 3 := by
    rw [hded]; decide
  have hhot : mostFreqHotIndex (y_train.map npArgmax) = 0 :=
    mostFreqHotIndex_all_zero _ hded
  have hfit_eq : ClassifierSkLearnWrapper.fit m x_train y_train sw
      = { m with model := SkClassifier.dummy ⟨0, 3⟩ } := by
    simp [ClassifierSkLearnWrapper.fit, hnc, hx0, hlen3, hhot]
  have hufit_eq : ClassifierUnweightedSkLearnWrapper.fit m x_train y_train sw idx
      = { m with model := SkClassifier.dummy ⟨0, 3⟩ } := by
    simp [ClassifierUnweightedSkLearnWrapper.fit, hnc, hx0, hlen3, hhot]
  refine ⟨by rw [hfit_eq], by rw [hufit_eq], ?_, by decide⟩
  rw [hfit_eq]
  simp [ClassifierSkLearnWrapper.predict, DummyClassifierState.predict_proba]

/-- Witness for C2: two rows of class 0 out of three declared classes,
queried on a one-row input. -/
theorem c2_missing_class_most_frequent_witness :
    (ClassifierSkLearnWrapper.new 3).num_classes = 3
    ∧ ([[(1 : ℚ), 0, 0], [1, 0, 0]] : List (List ℚ)) ≠ []
    ∧ ClassifierSkLearnWrapper.predict ppObservedClasses
        (ClassifierSkLearnWrapper.fit (ClassifierSkLearnWrapper.new 3)
          [[1], [2]] [[1, 0, 0], [1, 0, 0]] none)
        [[9]]
        = some [[1, 0, 0]] := by
  have h := c2_missing_class_most_frequent ppObservedClasses (ClassifierSkLearnWrapper.new 3)
    (by decide) [[1], [2]] [[1, 0, 0], [1, 0, 0]] none [] [[9]]
    (by decide) (by decide) (by decide)
  refine ⟨by decide, by decide, ?_⟩
  rw [h.2.2.1]
  decide

/-- C3 counterexample: the claim "for every classifier variant, fitting with
all-equal per-row weights and fitting with `sample_weights=None` yield
numerically identical fitted estimator state" fails in three ways, one per
variant family, each at a concrete input.
(1) `ClassifierUnweightedSkLearnWrapper`: with equal weights `[1, 1]` on a
two-row two-class dataset, the random bootstrap draw `[0, 0]` (a
positive-probability output of `np.random.choice`) delivers the resampled
rows `[[0], [0]]` with labels `[0, 0]` to the wrapped estimator, while the
unweighted path delivers the original `[[0], [1]]` with labels `[0, 1]` —
different fitted estimator states even after normalizing by the sklearn
convention `sample_weight=None ≡ all-ones`.
(2) `TorchClassMixin`: with all-equal weights `[2, 2]` the batch loss is
twice the unweighted one (`3` versus `3/2` on per-row losses `[1, 2]`), so
the gradient fit is driven by a different loss than the unweighted fit.
(3) `ClassifierSkLearnWrapper`: with all-equal weights `[2, 2]` the wrapped
estimator receives `sample_weight=[2, 2]`, which even under the sklearn
convention `None ≡ all-ones` is a different fitted estimator state than the
unweighted call delivers.
So the exclusion of the bootstrap variant is forced by (1), and the
restriction of "all-equal" to "all equal to one" is forced by (2) and (3). -/
theorem c3_equal_weights_counterexample :
    ((ClassifierUnweightedSkLearnWrapper.fit (ClassifierSkLearnWrapper.new 2)
        [[0], [1]] [[1, 0], [0, 1]] (some [1, 1]) [0, 0]).model.canonical
      ≠ (ClassifierUnweightedSkLearnWrapper.fit (ClassifierSkLearnWrapper.new 2)
        [[0], [1]] [[1, 0], [0, 1]] none [0, 0]).model.canonical)
    ∧ torchBatchLoss [1, 2] (some [2, 2]) = 3
    ∧ torchBatchLoss [1, 2] none = 3/2
    ∧ torchBatchLoss [1, 2] (some [2, 2]) ≠ torchBatchLoss [1, 2] none
    ∧ ((ClassifierSkLearnWrapper.fit (ClassifierSkLearnWrapper.new 2)
        [[0], [1]] [[1, 0], [0, 1]] (some [2, 2])).model.canonical
      ≠ (ClassifierSkLearnWrapper.fit (ClassifierSkLearnWrapper.new 2)
        [[0], [1]] [[1, 0], [0, 1]] none).model.canonical) := by
  refine ⟨by decide, ?_, ?_, ?_, by decide⟩
  · norm_num [torchBatchLoss, tensorMean]
  · norm_num [torchBatchLoss, tensorMean]
  · norm_num [torchBatchLoss, tensorMean]

/-- C3 (amended): for the native-weighted variant `ClassifierSkLearnWrapper`,
fitting with all per-row weights equal to one and fitting with no sample
weights deliver the same fitted estimator state up to the documented sklearn
convention `sample_weight=None ≡ all-ones`; and in the gradient-trained
classifier's loss pipeline, all-one weights give exactly the unweighted batch
loss.  Each restriction is forced by one part of the counterexample: the
bootstrap-resampling `ClassifierUnweightedSkLearnWrapper` is excluded because
its equal-weight path fits the wrapped estimator on a random resample of the
data (part 1), and "all-equal" is restricted to "all equal to one" because a
common weight `c ≠ 1` scales the gradient mixins' batch loss by `c` (part 2)
and delivers a `c`-scaled weight vector, not equivalent to `None` under the
documented convention, to the native wrapper's estimator (part 3). -/
theorem c3_uniform_unit_weights_noop :
    (∀ (m : ClassifierSkLearnWrapper) (x_train y_train : List (List ℚ)),
      ((ClassifierSkLearnWrapper.fit m x_train y_train
          (some (List.replicate x_train.length 1))).model).canonical
        = ((ClassifierSkLearnWrapper.fit m x_train y_train none).model).canonical)
    ∧ (∀ perRowLoss : List ℚ,
        torchBatchLoss perRowLoss (some (List.replicate perRowLoss.length 1))
          = torchBatchLoss perRowLoss none) := by
  constructor
  · intro m x_train y_train
    by_cases h0 : x_train.length = 0
    · simp [ClassifierSkLearnWrapper.fit, h0]
    · by_cases h1 : (y_train.map npArgmax).dedup.length ≠ m.num_classes
      · simp [ClassifierSkLearnWrapper.fit, h0, h1]
      · simp [ClassifierSkLearnWrapper.fit, h0, h1, SkClassifier.canonical]
  · intro perRowLoss
    simp [torchBatchLoss, zipWith_mul_ones]

/-- C4 (code bug): the Model Contract (the abstract `Model.fit` signature and
every concrete `fit` docstring) declares the weight keyword `sample_weights`,
but every concrete `fit` implementation names the parameter `sample_weight`.
Consequently `TorchClassMixin.fit` (which has no `**kwargs`) raises
`TypeError` when called with the documented keyword while accepting the
undocumented one, and `ClassifierSkLearnWrapper.fit` silently routes the
documented keyword into `**kwargs`, so the weights are NOT applied: the call
behaves exactly like an unweighted fit (whereas the undocumented
`sample_weight` keyword does reach the weighted path). -/
theorem c4_sample_weights_keyword_mismatch :
    Model.fitWeightKeyword ≠ concreteFitWeightParam
    ∧ TorchClassMixin.fitCallRaisesTypeError [Model.fitWeightKeyword] = true
    ∧ TorchClassMixin.fitCallRaisesTypeError [concreteFitWeightParam] = false
    ∧ ClassifierSkLearnWrapper.fitWithKwargs (ClassifierSkLearnWrapper.new 2)
        [[0], [1]] [[1, 0], [0, 1]] [(Model.fitWeightKeyword, [5, 5])]
        = ClassifierSkLearnWrapper.fit (ClassifierSkLearnWrapper.new 2)
          [[0], [1]] [[1, 0], [0, 1]] none
    ∧ ClassifierSkLearnWrapper.fitWithKwargs (ClassifierSkLearnWrapper.new 2)
        [[0], [1]] [[1, 0], [0, 1]] [(concreteFitWeightParam, [5, 5])]
        = ClassifierSkLearnWrapper.fit (ClassifierSkLearnWrapper.new 2)
          [[0], [1]] [[1, 0], [0, 1]] (some [5, 5]) := by
  refine ⟨by decide, by decide, by decide, ?_, ?_⟩
  · rfl
  · rfl

/-- C5: for every gradient-trained classifier, `fit` selects binary
cross-entropy as the training loss exactly when `num_classes == 2` and
categorical cross-entropy otherwise; and when weights are supplied the loss
is computed per row (`reduction="none"`), multiplied by the row weight, and
then averaged, i.e. it equals the sum of the weighted per-row losses divided
by the row count. -/
theorem c5_loss_selection (num_classes : Nat) (perRowLoss w : List ℚ)
    (hw : w.length = perRowLoss.length) :
    (TorchClassMixin.criterion num_classes = Criterion.binary_cross_entropy
      ↔ num_classes = 2)
    ∧ torchBatchLoss perRowLoss (some w)
        = (List.zipWith (fun a b => a * b) perRowLoss w).sum / perRowLoss.length
    ∧ torchBatchLoss perRowLoss none = perRowLoss.sum / perRowLoss.length := by
  refine ⟨?_, ?_, rfl⟩
  · by_cases h : num_classes = 2 <;> simp [TorchClassMixin.criterion, h]
  · simp [torchBatchLoss, tensorMean, List.length_zipWith, hw]

/-- Witness for C5 at `num_classes = 2`, losses `[1, 2]`, weights
`[1/2, 1/2]`. -/
theorem c5_loss_selection_witness :
    ([(1 : ℚ)/2, 1/2] : List ℚ).length = ([(1 : ℚ), 2] : List ℚ).length
    ∧ ((TorchClassMixin.criterion 2 = Criterion.binary_cross_entropy ↔ 2 = 2)
      ∧ torchBatchLoss [(1 : ℚ), 2] (some [1/2, 1/2])
          = (List.zipWith (fun a b => a * b) [(1 : ℚ), 2] [1/2, 1/2]).sum
            / ([(1 : ℚ), 2] : List ℚ).length
      ∧ torchBatchLoss [(1 : ℚ), 2] none
          = ([(1 : ℚ), 2] : List ℚ).sum / ([(1 : ℚ), 2] : List ℚ).length) :=
  ⟨by decide, c5_loss_selection 2 [1, 2] [1/2, 1/2] (by decide)⟩

/-- C6: `clone()` (i.e. `copy.deepcopy`) returns an independent copy:
immediately after cloning, the clone's `predict` agrees with the original's
on every input, and a subsequent `fit` performed on the clone leaves the
original's `predict` outputs unchanged — and vice versa, fitting the original
leaves the clone's `predict` outputs unchanged. -/
theorem c6_clone_independence
    (pp : List (List ℚ) → List Nat → Option (List ℚ) → List (List ℚ) → List (List ℚ))
    (r : ModelRef) (h : EstimatorHeap) (hwf : r.wf h)
    (x xt yt : List (List ℚ)) (sw : Option (List ℚ)) :
    ModelRef.predict pp (Model.clone r h).1 (Model.clone r h).2 x
        = ModelRef.predict pp r h x
    ∧ ModelRef.predict pp r
        (ModelRef.fit (Model.clone r h).1 (Model.clone r h).2 xt yt sw) x
        = ModelRef.predict pp r h x
    ∧ ModelRef.predict pp (Model.clone r h).1
        (ModelRef.fit r (Model.clone r h).2 xt yt sw) x
        = ModelRef.predict pp (Model.clone r h).1 (Model.clone r h).2 x := by
  have hne : r.modelAddr ≠ h.next := Nat.ne_of_lt hwf
  refine ⟨?_, ?_, ?_⟩
  · simp [ModelRef.predict, Model.clone]
  · simp [ModelRef.predict, Model.clone, ModelRef.fit, hne]
  · have hne' : h.next ≠ r.modelAddr := Ne.symm hne
    simp [ModelRef.predict, Model.clone, ModelRef.fit, hne']

/-- Witness for C6 on a one-object heap: the adapter lives at address 0 and
the next fresh address is 1. -/
theorem c6_clone_independence_witness :
    ModelRef.wf ⟨0, 2⟩ ⟨fun _ => SkClassifier.unfitted, 1⟩
    ∧ ModelRef.predict ppObservedClasses
        (Model.clone ⟨0, 2⟩ ⟨fun _ => SkClassifier.unfitted, 1⟩).1
        (ModelRef.fit ⟨0, 2⟩
          (Model.clone ⟨0, 2⟩ ⟨fun _ => SkClassifier.unfitted, 1⟩).2
          [[0], [1]] [[1, 0], [0, 1]] none)
        [[3]]
        = ModelRef.predict ppObservedClasses
            (Model.clone ⟨0, 2⟩ ⟨fun _ => SkClassifier.unfitted, 1⟩).1
            (Model.clone ⟨0, 2⟩ ⟨fun _ => SkClassifier.unfitted, 1⟩).2
            [[3]] :=
  ⟨Nat.zero_lt_one,
    (c6_clone_independence ppObservedClasses ⟨0, 2⟩ ⟨fun _ => SkClassifier.unfitted, 1⟩
      Nat.zero_lt_one [[3]] [[0], [1]] [[1, 0], [0, 1]] none).2.2⟩

lemma lookup_initSubclass_other (reg : ModelRegistry) (d : PyClass) (k : String)
    (hne : pyLower d.name ≠ k) :
    ModelRegistry.lookupName (Model.initSubclass reg d) k
      = ModelRegistry.lookupName reg k := by
  have hbeq : (k == pyLower d.name) = false :=
    beq_eq_false_iff_ne.mpr (fun h' => hne h'.symm)
  simp [Model.initSubclass, ModelRegistry.lookupName, List.lookup, hbeq]

lemma lookup_foldl_initSubclass_distinct (later : List PyClass) :
    ∀ (reg : ModelRegistry) (k : String) (v : PyClass),
      (∀ d ∈ later, pyLower d.name ≠ k) →
      ModelRegistry.lookupName reg k = some v →
      ModelRegistry.lookupName (later.foldl Model.initSubclass reg) k = some v := by
  induction later with
  | nil => intro reg k v _ hl; exact hl
  | cons d t ih =>
    intro reg k v hd hl
    simp only [List.foldl_cons]
    apply ih
    · intro e he
      exact hd e (List.mem_cons_of_mem _ he)
    · rw [lookup_initSubclass_other reg d k (hd d (List.mem_cons_self d t))]
      exact hl

/-- C7: defining a concrete `Model` subclass inserts it into the shared
registry under its lowercased class name, and looking that key up afterwards
returns exactly that subclass — also after any sequence of later subclass
definitions whose lowercased names differ (entries are only added or
overwritten by same-key definitions, never removed: every key present before
a definition is still present after it). -/
theorem c7_registry_roundtrip (reg : ModelRegistry) (cls : PyClass)
    (laterDefs : List PyClass)
    (hdistinct : ∀ d ∈ laterDefs, pyLower d.name ≠ pyLower cls.name) :
    ModelRegistry.lookupName (Model.initSubclass reg cls) (pyLower cls.name)
        = some cls
    ∧ ModelRegistry.lookupName
        (laterDefs.foldl Model.initSubclass (Model.initSubclass reg cls))
        (pyLower cls.name) = some cls
    ∧ (∀ k, (ModelRegistry.lookupName reg k).isSome →
        (ModelRegistry.lookupName (Model.initSubclass reg cls) k).isSome) := by
  have hbase : ModelRegistry.lookupName (Model.initSubclass reg cls)
      (pyLower cls.name) = some cls := by
    simp [Model.initSubclass, ModelRegistry.lookupName, List.lookup]
  refine ⟨hbase, ?_, ?_⟩
  · exact lookup_foldl_initSubclass_distinct laterDefs _ _ _ hdistinct hbase
  · intro k hk
    by_cases hke : k = pyLower cls.name
    · subst hke
      rw [hbase]
      rfl
    · rw [lookup_initSubclass_other reg cls k (fun h' => hke h'.symm)]
      exact hk

/-- Concrete class names for the C7 witness. -/
def classifierMLPClass : PyClass := { name := "ClassifierMLP" }

/-- A second concrete class name, lowercasing differently. -/
def regressionMLPClass : PyClass := { name := "RegressionMLP" }

/-- The lowercased key of `classifierMLPClass`. -/
def classifierMLPKey : String := "classifiermlp"

/-- Witness for C7: register `ClassifierMLP` into an empty registry, then
register `RegressionMLP`; the lookup of `classifiermlp` still returns
`ClassifierMLP`. -/
theorem c7_registry_roundtrip_witness :
    (∀ d ∈ [regressionMLPClass], pyLower d.name ≠ pyLower classifierMLPClass.name)
    ∧ ModelRegistry.lookupName
        ([regressionMLPClass].foldl Model.initSubclass
          (Model.initSubclass [] classifierMLPClass))
        (pyLower classifierMLPClass.name) = some classifierMLPClass
    ∧ pyLower classifierMLPClass.name = classifierMLPKey := by
  refine ⟨by decide, ?_, by decide⟩
  exact (c7_registry_roundtrip [] classifierMLPClass [regressionMLPClass]
    (by decide)).2.1

/-- The most-frequent dummy estimator that the classifier adapters install
in the missing-class fallback. -/
def mostFreqDummyModel (y_idx : List Nat) (nc : Nat) : SkClassifier :=
  SkClassifier.dummy ⟨mostFreqHotIndex y_idx, nc⟩

lemma classifierFit_eq_cases (m : ClassifierSkLearnWrapper)
    (x_train y_train : List (List ℚ)) (sw : Option (List ℚ))
    (hx0 : x_train.length ≠ 0) :
    (ClassifierSkLearnWrapper.fit m x_train y_train sw
        = { m with model := mostFreqDummyModel (y_train.map npArgmax) m.num_classes }
      ∧ (y_train.map npArgmax).dedup.length ≠ m.num_classes)
    ∨ (ClassifierSkLearnWrapper.fit m x_train y_train sw
        = { m with model := SkClassifier.fitted x_train (y_train.map npArgmax) sw }
      ∧ (y_train.map npArgmax).dedup.length = m.num_classes) := by
  by_cases h1 : (y_train.map npArgmax).dedup.length = m.num_classes
  · right
    refine ⟨?_, h1⟩
    cases sw <;> simp [ClassifierSkLearnWrapper.fit, hx0, h1]
  · left
    refine ⟨?_, h1⟩
    simp [ClassifierSkLearnWrapper.fit, mostFreqDummyModel, hx0, h1]

/-- The wrapped-estimator state produced by the unweighted wrapper's
bootstrap path: fit, unweighted, on the drawn resample of the data. -/
def resampledFittedModel (x_train y_train : List (List ℚ)) (idx : List Nat) :
    SkClassifier :=
  SkClassifier.fitted (idx.map (fun i => x_train.getD i []))
    (idx.map (fun i => (y_train.map npArgmax).getD i 0)) none

lemma unweightedClassifierFit_eq_cases (m : ClassifierSkLearnWrapper)
    (x_train y_train : List (List ℚ)) (sw : Option (List ℚ)) (idx : List Nat)
    (hx0 : x_train.length ≠ 0) :
    (ClassifierUnweightedSkLearnWrapper.fit m x_train y_train sw idx
        = { m with model := mostFreqDummyModel (y_train.map npArgmax) m.num_classes }
      ∧ (y_train.map npArgmax).dedup.length ≠ m.num_classes)
    ∨ (ClassifierUnweightedSkLearnWrapper.fit m x_train y_train sw idx
        = { m with model := SkClassifier.fitted x_train (y_train.map npArgmax) none }
      ∧ sw = none ∧ (y_train.map npArgmax).dedup.length = m.num_classes)
    ∨ (∃ w, sw = some w
      ∧ ClassifierUnweightedSkLearnWrapper.fit m x_train y_train sw idx
        = { m with model := resampledFittedModel x_train y_train idx }
      ∧ (y_train.map npArgmax).dedup.length = m.num_classes) := by
  by_cases h1 : (y_train.map npArgmax).dedup.length = m.num_classes
  · cases sw with
    | none =>
      right; left
      exact ⟨by simp [ClassifierUnweightedSkLearnWrapper.fit, hx0, h1], rfl, h1⟩
    | some w =>
      right; right
      refine ⟨w, rfl, ?_, h1⟩
      simp [ClassifierUnweightedSkLearnWrapper.fit, resampledFittedModel, hx0, h1]
  · left
    refine ⟨?_, h1⟩
    simp [ClassifierUnweightedSkLearnWrapper.fit, mostFreqDummyModel, hx0, h1]

lemma RegressionSkLearnWrapper.fit_nonempty (rg : RegressionSkLearnWrapper)
    (x_train y_train : List (List ℚ)) (sw : Option (List ℚ))
    (hx0 : x_train.length ≠ 0) :
    RegressionSkLearnWrapper.fit rg x_train y_train sw
      = { rg with model := SkRegressor.fitted x_train y_train sw } := by
  cases sw <;> simp [RegressionSkLearnWrapper.fit, hx0]

lemma classifier_predict_shape
    (pp : List (List ℚ) → List Nat → Option (List ℚ) → List (List ℚ) → List (List ℚ))
    (hpp : ∀ xt yt w x, (pp xt yt w x).length = x.length
      ∧ ∀ row ∈ pp xt yt w x, row.length = yt.dedup.length)
    (m' : ClassifierSkLearnWrapper) (x : List (List ℚ))
    (h : (∃ d : DummyClassifierState,
          m'.model = SkClassifier.dummy d ∧ d.n_classes_ = m'.num_classes)
       ∨ (∃ xt yt w, m'.model = SkClassifier.fitted xt yt w
          ∧ yt.dedup.length = m'.num_classes)) :
    predShape (ClassifierSkLearnWrapper.predict pp m' x) x.length m'.num_classes := by
  rcases h with ⟨d, hmo, hd⟩ | ⟨xt, yt, w, hmo, hyt⟩
  · simp only [ClassifierSkLearnWrapper.predict, hmo, predShape,
      DummyClassifierState.predict_proba]
    constructor
    · exact List.length_replicate _ _
    · intro row hrow
      rw [List.eq_of_mem_replicate hrow, oneHotRow_length, hd]
  · simp only [ClassifierSkLearnWrapper.predict, hmo, predShape]
    obtain ⟨hl, hr⟩ := hpp xt yt w x
    exact ⟨hl, fun row hrow => by rw [hr row hrow, hyt]⟩

lemma npReshape_shape (l : List ℚ) (k n : Nat) (hk : 0 < k)
    (hlen : l.length = n * k) :
    predShape (npReshapeNegOne l k) n k := by
  have hmod : l.length % k = 0 := by
    rw [hlen]
    exact Nat.mul_mod_left n k
  have hcond : 0 < k ∧ l.length % k = 0 := ⟨hk, hmod⟩
  obtain ⟨hl, hr⟩ := chunkRowsAux_shape k hk l.length l (Nat.le_refl _)
    ⟨n, by rw [hlen, Nat.mul_comm]⟩
  simp only [npReshapeNegOne, if_pos hcond, predShape]
  constructor
  · rw [hl, hlen, Nat.mul_div_cancel _ hk]
  · exact hr

/-- C8 counterexample: the claim "for every model, after `fit` on a non-empty
well-formed dataset, `predict(x)` has `num_classes` columns" fails for
`ClassifierUnweightedSkLearnWrapper` fit with sample weights: on the two-row
two-class dataset below (both classes present, so no fallback is taken) with
equal weights, the bootstrap draw `[0, 0]` delivers a single-class resample
to the wrapped estimator, whose `predict_proba` (here the conforming oracle
`ppObservedClasses`, one column per class seen at fit time per the sklearn contract)
then returns one column instead of `num_classes = 2`. -/
theorem c8_bootstrap_shape_counterexample :
    ClassifierSkLearnWrapper.predict ppObservedClasses
        (ClassifierUnweightedSkLearnWrapper.fit (ClassifierSkLearnWrapper.new 2)
          [[0], [1]] [[1, 0], [0, 1]] (some [1, 1]) [0, 0]) [[9]]
      = some [[1]]
    ∧ ¬ predShape (some [[(1 : ℚ)]]) 1 2 := by
  constructor
  · decide
  · intro hsh
    have := hsh.2 [(1 : ℚ)] (by decide)
    simp at this

/-- C8 (amended): for every model, after `fit` on a non-empty well-formed
dataset, `predict(x)` returns an output with `x`'s row count and
`num_classes` columns — for `ClassifierSkLearnWrapper` and
`RegressionSkLearnWrapper` under the sklearn shape contracts for the wrapped
estimator, for the torch predict mixin under the network's output-shape
contract, and for `ClassifierUnweightedSkLearnWrapper` when fit unweighted,
or fit weighted provided the bootstrap resample retains every declared class
(the counterexample shows the unrestricted claim fails without this
proviso). -/
theorem c8_predict_shape
    (pp : List (List ℚ) → List Nat → Option (List ℚ) → List (List ℚ) → List (List ℚ))
    (hpp : ∀ xt yt w x, (pp xt yt w x).length = x.length
      ∧ ∀ row ∈ pp xt yt w x, row.length = yt.dedup.length)
    (pr : List (List ℚ) → List (List ℚ) → Option (List ℚ) → List (List ℚ) → List ℚ)
    (m : ClassifierSkLearnWrapper) (rg : RegressionSkLearnWrapper)
    (hpr : ∀ xt yt w x, (pr xt yt w x).length = x.length * rg.num_classes)
    (x_train y_train : List (List ℚ)) (sw : Option (List ℚ)) (idx : List Nat)
    (hx : x_train ≠ []) (hk : 0 < rg.num_classes) (x : List (List ℚ))
    (forward : List (List ℚ) → List (List ℚ)) (ts : TorchModelState) (nc : Nat)
    (hf : (forward x).length = x.length ∧ ∀ row ∈ forward x, row.length = nc) :
    predShape (ClassifierSkLearnWrapper.predict pp
        (ClassifierSkLearnWrapper.fit m x_train y_train sw) x)
        x.length m.num_classes
    ∧ predShape (RegressionSkLearnWrapper.predict pr
        (RegressionSkLearnWrapper.fit rg x_train y_train sw) x)
        x.length rg.num_classes
    ∧ (sw = none →
        predShape (ClassifierSkLearnWrapper.predict pp
          (ClassifierUnweightedSkLearnWrapper.fit m x_train y_train sw idx) x)
          x.length m.num_classes)
    ∧ ((idx.map (fun i => (y_train.map npArgmax).getD i 0)).dedup.length
          = m.num_classes →
        predShape (ClassifierSkLearnWrapper.predict pp
          (ClassifierUnweightedSkLearnWrapper.fit m x_train y_train sw idx) x)
          x.length m.num_classes)
    ∧ (TorchPredictMixin.predict forward ts x).2.length = x.length
    ∧ ∀ row ∈ (TorchPredictMixin.predict forward ts x).2, row.length = nc := by
  have hx0 : x_train.length ≠ 0 := fun h => hx (List.length_eq_zero.mp h)
  refine ⟨?_, ?_, ?_, ?_, hf.1, hf.2⟩
  · rcases classifierFit_eq_cases m x_train y_train sw hx0 with
      ⟨heq, _⟩ | ⟨heq, hlen⟩
    · rw [heq]
      exact classifier_predict_shape pp hpp _ x (Or.inl ⟨_, rfl, rfl⟩)
    · rw [heq]
      exact classifier_predict_shape pp hpp _ x
        (Or.inr ⟨x_train, y_train.map npArgmax, sw, rfl, hlen⟩)
  · rw [RegressionSkLearnWrapper.fit_nonempty rg x_train y_train sw hx0]
    simp only [RegressionSkLearnWrapper.predict]
    exact npReshape_shape _ _ _ hk (hpr x_train y_train sw x)
  · intro hswn
    rcases unweightedClassifierFit_eq_cases m x_train y_train sw idx
        hx0 with ⟨heq, _⟩ | ⟨heq, _, hlen⟩ | ⟨w, hsw, _, _⟩
    · rw [heq]
      exact classifier_predict_shape pp hpp _ x (Or.inl ⟨_, rfl, rfl⟩)
    · rw [heq]
      exact classifier_predict_shape pp hpp _ x
        (Or.inr ⟨x_train, y_train.map npArgmax, none, rfl, hlen⟩)
    · rw [hswn] at hsw
      exact absurd hsw (by simp)
  · intro hres
    rcases unweightedClassifierFit_eq_cases m x_train y_train sw idx
        hx0 with ⟨heq, _⟩ | ⟨heq, _, hlen⟩ | ⟨w, _, heq, _⟩
    · rw [heq]
      exact classifier_predict_shape pp hpp _ x (Or.inl ⟨_, rfl, rfl⟩)
    · rw [heq]
      exact classifier_predict_shape pp hpp _ x
        (Or.inr ⟨x_train, y_train.map npArgmax, none, rfl, hlen⟩)
    · rw [heq]
      exact classifier_predict_shape pp hpp _ x
        (Or.inr ⟨idx.map (fun i => x_train.getD i []),
          idx.map (fun i => (y_train.map npArgmax).getD i 0), none, rfl, hres⟩)

/-- A conforming flat-output oracle for the black-box wrapped regressor with
one target column: one value per query row. -/
def prZeros (xt yt : List (List ℚ)) (w : Option (List ℚ))
    (x : List (List ℚ)) : List ℚ :=
  List.replicate x.length 0

/-- Witness for C8 (amended): concrete two-row two-class dataset, conforming
oracles, one-row query. -/
theorem c8_predict_shape_witness :
    ([[(0 : ℚ)], [1]] : List (List ℚ)) ≠ []
    ∧ 0 < RegressionSkLearnWrapper.new.num_classes
    ∧ predShape (ClassifierSkLearnWrapper.predict ppObservedClasses
        (ClassifierSkLearnWrapper.fit (ClassifierSkLearnWrapper.new 2)
          [[0], [1]] [[1, 0], [0, 1]] none) [[9]]) 1 2
    ∧ predShape (RegressionSkLearnWrapper.predict prZeros
        (RegressionSkLearnWrapper.fit RegressionSkLearnWrapper.new
          [[0], [1]] [[1, 0], [0, 1]] none) [[9]]) 1 1 := by
  have h := c8_predict_shape ppObservedClasses
    (by
      intro xt yt w x
      constructor
      · simp [ppObservedClasses]
      · intro row hrow
        rw [List.eq_of_mem_replicate hrow, oneHotRow_length])
    prZeros (ClassifierSkLearnWrapper.new 2) RegressionSkLearnWrapper.new
    (by
      intro xt yt w x
      simp [prZeros, RegressionSkLearnWrapper.new])
    [[0], [1]] [[1, 0], [0, 1]] none [] (by decide) (by decide) [[9]]
    (fun v => v.map (fun _ => [0, 0])) ⟨[0], false⟩ 2 (by decide)
  exact ⟨by decide, by decide, h.1, h.2.1⟩

/-- C9: for every classifier adapter fit on a non-empty aligned dataset whose
arg-max label indices all lie below `num_classes` (well-formed one-hot
labels), the most-frequent-class fallback is taken exactly when the set of
distinct observed class indices has fewer entries than `num_classes`; and
whenever every declared class is represented in the training sample, the
wrapped estimator itself is fit rather than being replaced by a fallback. -/
theorem c9_fallback_iff_missing_class (m : ClassifierSkLearnWrapper)
    (x_train y_train : List (List ℚ)) (sw : Option (List ℚ)) (idx : List Nat)
    (hx : x_train ≠ []) (hy : y_train.length = x_train.length)
    (hlab : ∀ r ∈ y_train, npArgmax r < m.num_classes) :
    ((ClassifierSkLearnWrapper.fit m x_train y_train sw).model.isFallback = true
      ↔ (y_train.map npArgmax).dedup.length < m.num_classes)
    ∧ ((ClassifierUnweightedSkLearnWrapper.fit m x_train y_train sw idx).model.isFallback
          = true
      ↔ (y_train.map npArgmax).dedup.length < m.num_classes)
    ∧ ((∀ c, c < m.num_classes → c ∈ y_train.map npArgmax) →
        (ClassifierSkLearnWrapper.fit m x_train y_train sw).model.isFittedWrapped
            = true
        ∧ (ClassifierUnweightedSkLearnWrapper.fit m x_train y_train sw
            idx).model.isFittedWrapped = true) := by
  have hx0 : x_train.length ≠ 0 := fun h => hx (List.length_eq_zero.mp h)
  have hlab' : ∀ a ∈ y_train.map npArgmax, a < m.num_classes := by
    intro a ha
    obtain ⟨r, hr, rfl⟩ := List.mem_map.mp ha
    exact hlab r hr
  have hle : (y_train.map npArgmax).dedup.length ≤ m.num_classes :=
    dedup_length_le_of_lt _ _ hlab'
  have hiff : (y_train.map npArgmax).dedup.length ≠ m.num_classes
      ↔ (y_train.map npArgmax).dedup.length < m.num_classes :=
    ⟨fun h => Nat.lt_of_le_of_ne hle h, fun h => Nat.ne_of_lt h⟩
  refine ⟨?_, ?_, ?_⟩
  · rcases classifierFit_eq_cases m x_train y_train sw hx0 with
      ⟨heq, hne⟩ | ⟨heq, hlen⟩
    · rw [heq]
      simp only [mostFreqDummyModel, SkClassifier.isFallback]
      exact ⟨fun _ => hiff.mp hne, fun _ => trivial⟩
    · rw [heq]
      simp only [SkClassifier.isFallback]
      constructor
      · intro h
        exact absurd h (by simp)
      · intro h
        exact absurd hlen (Nat.ne_of_lt h)
  · rcases unweightedClassifierFit_eq_cases m x_train y_train sw idx
        hx0 with ⟨heq, hne⟩ | ⟨heq, _, hlen⟩ | ⟨w, _, heq, hlen⟩
    · rw [heq]
      simp only [mostFreqDummyModel, SkClassifier.isFallback]
      exact ⟨fun _ => hiff.mp hne, fun _ => trivial⟩
    · rw [heq]
      simp only [SkClassifier.isFallback]
      constructor
      · intro h
        exact absurd h (by simp)
      · intro h
        exact absurd hlen (Nat.ne_of_lt h)
    · rw [heq]
      simp only [resampledFittedModel, SkClassifier.isFallback]
      constructor
      · intro h
        exact absurd h (by simp)
      · intro h
        exact absurd hlen (Nat.ne_of_lt h)
  · intro hrep
    have hlen : (y_train.map npArgmax).dedup.length = m.num_classes :=
      dedup_length_eq_of_represented _ _ hlab' hrep
    constructor
    · rcases classifierFit_eq_cases m x_train y_train sw hx0 with
        ⟨_, hne⟩ | ⟨heq, _⟩
      · exact absurd hlen hne
      · rw [heq]
        rfl
    · rcases unweightedClassifierFit_eq_cases m x_train y_train sw idx
          hx0 with ⟨_, hne⟩ | ⟨heq, _, _⟩ | ⟨w, _, heq, _⟩
      · exact absurd hlen hne
      · rw [heq]
        rfl
      · rw [heq]
        rfl

/-- Witness for C9: a dataset containing both of two declared classes (no
fallback, wrapped estimator fit) versus the biconditional instantiated. -/
theorem c9_fallback_iff_missing_class_witness :
    (([[(0 : ℚ)], [1]] : List (List ℚ)) ≠ []
      ∧ ([[(1 : ℚ), 0], [0, 1]] : List (List ℚ)).length
          = ([[(0 : ℚ)], [1]] : List (List ℚ)).length
      ∧ ∀ r ∈ ([[(1 : ℚ), 0], [0, 1]] : List (List ℚ)),
          npArgmax r < (ClassifierSkLearnWrapper.new 2).num_classes)
    ∧ ((ClassifierSkLearnWrapper.fit (ClassifierSkLearnWrapper.new 2)
        [[0], [1]] [[1, 0], [0, 1]] none).model.isFallback = true
      ↔ (([[(1 : ℚ), 0], [0, 1]] : List (List ℚ)).map npArgmax).dedup.length
          < (ClassifierSkLearnWrapper.new 2).num_classes) := by
  refine ⟨⟨by decide, by decide, by decide⟩, ?_⟩
  exact (c9_fallback_iff_missing_class (ClassifierSkLearnWrapper.new 2)
    [[0], [1]] [[1, 0], [0, 1]] none [] (by decide) (by decide) (by decide)).1

/-- C10: for every gradient-trained predictor (classification and regression
mixins), calling `fit` with an `epochs` value whose integer truncation is
zero performs no optimizer step: the epoch loop body never runs, so the
returned model is `self` with every learnable parameter unchanged (only the
`train()` mode flag is set). -/
theorem c10_zero_epochs_no_step
    (epochStepC epochStepR : Nat → TorchModelState → TorchModelState)
    (self : TorchModelState) (epochs : ℚ) (h : pyInt epochs = 0) :
    (TorchClassMixin.fit epochStepC self epochs).params = self.params
    ∧ (TorchRegressMixin.fit epochStepR self epochs).params = self.params
    ∧ TorchClassMixin.fit epochStepC self epochs = { self with training := true }
    ∧ TorchRegressMixin.fit epochStepR self epochs
        = { self with training := true } := by
  have hrange : (pyInt epochs).toNat = 0 := by rw [h]; rfl
  refine ⟨?_, ?_, ?_, ?_⟩ <;>
    simp [TorchClassMixin.fit, TorchRegressMixin.fit, hrange]

/-- Witness for C10 with `epochs = 0` and an epoch step that would erase the
parameters if it ever ran. -/
theorem c10_zero_epochs_no_step_witness :
    pyInt 0 = 0
    ∧ (TorchClassMixin.fit (fun _ _ => ⟨[], false⟩) ⟨[3], false⟩ 0).params = [3] := by
  have h0 : pyInt 0 = 0 := by
    simp [pyInt]
  exact ⟨h0, (c10_zero_epochs_no_step (fun _ _ => ⟨[], false⟩)
    (fun _ _ => ⟨[], false⟩) ⟨[3], false⟩ 0 h0).1⟩
